import Mathlib

/-!
Verification of the flight search-and-book script (`search_and_book.py`).

The script is embedded shallowly:

* Python/JSON values become the inductive `PyVal` (with an extra
  `datetime` constructor for `datetime.datetime` objects as produced by
  `strptime`); Python subscripting (`x[k]`) becomes `PyVal.getItem`,
  which returns the exception class CPython would raise (`TypeError`
  when subscripting `None` or another non-container, `KeyError` for a
  missing dict key, `IndexError` for an out-of-range list index).
* Fallible code returns `Except PyErr`; console output is collected as
  a `List String` of printed lines.
* The two HTTP calls are network effects: their responses are inputs of
  the embedding (`Resp` for the search GET, already split into status
  code and parsed JSON body; a `PyVal` for the parsed booking POST
  response).  `docopt` output is the record `SearchOptions`, whose
  fields carry the values docopt guarantees for the declared usage
  pattern (strings for the date and the two airport options, booleans for the flags,
  `None`-or-string for `--return`, a string for `--bags`).
* `datetime.strptime`/`strftime` are modelled for exactly the two format
  strings the program passes (`%Y-%m-%d` and `%d/%m/%Y`), including
  CPython's validity checks (field widths, month/day ranges, leap
  years); any other format is out of the program's reach and is mapped
  to an error.
-/

set_option autoImplicit false

namespace SearchAndBook

/-- Exception classes that the script can raise.  `typeError` covers
CPython's `TypeError` (e.g. subscripting `None`), `keyError` and
`indexError` the two `LookupError` subclasses, `valueError` the
`ValueError` raised by `strptime` on malformed dates. -/
inductive PyErr where
  | typeError
  | keyError
  | indexError
  | valueError
deriving DecidableEq, Repr

/-- A calendar date, the payload of a `datetime.datetime` object as the
script uses it (the time-of-day part produced by `strptime` is always
midnight and never observed). -/
structure Date where
  year : Nat
  month : Nat
  day : Nat
deriving DecidableEq, BEq, Repr

/-- Python/JSON values as the script manipulates them. -/
inductive PyVal where
  | none
  | bool (b : Bool)
  | int (n : Int)
  | str (s : String)
  | datetime (d : Date)
  | list (xs : List PyVal)
  | dict (kvs : List (String × PyVal))

/-- Test for the Python value `None` (the `is None` / `is not None`
checks of the script). -/
def PyVal.isNone : PyVal → Bool
  | .none => true
  | _ => false

/-- Python subscripting `container[key]`, returning the exception class
CPython raises on failure.  Dict keys in this program are always
strings (JSON objects), so a non-string key misses and raises
`KeyError`; subscripting a list with a non-integer, or subscripting a
scalar or `None`, raises `TypeError`.  (String indexing and boolean
list indices are legal in Python but never occur in this program and
are not modelled.) -/
def PyVal.getItem : PyVal → PyVal → Except PyErr PyVal
  | .dict kvs, .str k =>
    match kvs.lookup k with
    | some v => .ok v
    | Option.none => .error .keyError
  | .dict _, _ => .error .keyError
  | .list xs, .int i =>
    let j : Int := if i < 0 then i + xs.length else i
    if h : 0 ≤ j ∧ j.toNat < xs.length then .ok (xs.get ⟨j.toNat, h.2⟩)
    else .error .indexError
  | _, _ => .error .typeError

/-- Python `==` against a string literal, the only comparison the
source performs (`booking['status'] == 'confirmed'`): true exactly when
the value is an equal string; comparisons between values of different
types are `False` in Python, never an error. -/
def pyEqStr (v : PyVal) (s : String) : Bool :=
  match v with
  | .str t => t == s
  | _ => false

/-- Left-pad a numeral to two digits, as `strftime` does for `%d` and
`%m`. -/
def pad2 (n : Nat) : String :=
  if n < 10 then "0" ++ toString n else toString n

/-- Left-pad a year to four digits, as `strftime` renders `%Y` for the
years `datetime` admits (1..9999). -/
def padYear (n : Nat) : String :=
  if n < 10 then "000" ++ toString n
  else if n < 100 then "00" ++ toString n
  else if n < 1000 then "0" ++ toString n
  else toString n

/-- Gregorian leap-year rule, as used by `datetime`. -/
def isLeap (y : Nat) : Bool :=
  y % 4 == 0 && (y % 100 != 0 || y % 400 == 0)

/-- Number of days of month `m` of year `y`, as used by `datetime`. -/
def daysInMonth (y m : Nat) : Nat :=
  if m = 2 then (if isLeap y then 29 else 28)
  else if m = 4 ∨ m = 6 ∨ m = 9 ∨ m = 11 then 30
  else 31

/-- Numeric value of a list of decimal digit characters. -/
def natOfDigits (cs : List Char) : Nat :=
  cs.foldl (fun a c => 10 * a + (c.toNat - 48)) 0

/-- Split a character list at every dash (the separators of the
`'%Y-%m-%d'` format string). -/
def splitDash : List Char → List (List Char)
  | [] => [[]]
  | c :: cs =>
    if c = '-' then [] :: splitDash cs
    else
      match splitDash cs with
      | g :: gs => (c :: g) :: gs
      | [] => [[c]]

/-- A numeric `strptime` field: between `minLen` and `maxLen` digits
whose value lies in `lo..hi` (this is what CPython's regexes for `%Y`,
`%m`, `%d` accept). -/
def numField (cs : List Char) (minLen maxLen lo hi : Nat) : Option Nat :=
  if minLen ≤ cs.length ∧ cs.length ≤ maxLen ∧ cs.all (·.isDigit) then
    if lo ≤ natOfDigits cs ∧ natOfDigits cs ≤ hi then some (natOfDigits cs)
    else Option.none
  else Option.none

/-- Parsing of `datetime.datetime.strptime(s, '%Y-%m-%d')`: a 4-digit
year (`datetime` rejects year 0), a 1-2 digit month in 1..12, a 1-2
digit day in 1..31, and the day must exist in that month of that year.
`none` stands for the `ValueError` CPython raises otherwise. -/
def parseYMD (s : String) : Option Date :=
  match splitDash s.data with
  | [ys, ms, ds] =>
    match numField ys 4 4 1 9999, numField ms 1 2 1 12, numField ds 1 2 1 31 with
    | some y, some m, some d =>
      if d ≤ daysInMonth y m then some ⟨y, m, d⟩ else Option.none
    | _, _, _ => Option.none
  | _ => Option.none

/-- Rendering of `datetime.datetime.strftime(d, '%d/%m/%Y')`:
zero-padded day and month, the year of the same calendar date. -/
def formatDMY (d : Date) : String :=
  pad2 d.day ++ "/" ++ pad2 d.month ++ "/" ++ padYear d.year

/-- Model of `datetime.datetime.strptime` restricted to the one format
string the program passes (`'%Y-%m-%d'`); a malformed date raises
`ValueError`, a non-string first argument `TypeError`. -/
def strptime (date : PyVal) (format : String) : Except PyErr PyVal :=
  match date with
  | .str s =>
    if format = "%Y-%m-%d" then
      match parseYMD s with
      | some d => .ok (.datetime d)
      | Option.none => .error .valueError
    else .error .valueError
  | _ => .error .typeError

/-- Model of `datetime.datetime.strftime` restricted to the one format
string the program passes (`'%d/%m/%Y'`); a non-datetime first argument
raises `TypeError`. -/
def strftime (date : PyVal) (format : String) : Except PyErr PyVal :=
  match date with
  | .datetime d =>
    if format = "%d/%m/%Y" then .ok (.str (formatDMY d))
    else .error .valueError
  | _ => .error .typeError

/-- Embedding of `convert_date(date, format, type)`: dispatches on the
`type` argument to `strptime` (`'object'`) or `strftime` (`'string'`);
any other `type` prints `Unsupported convertsion` (sic) and returns
`None`.  The second component collects the printed lines. -/
def convert_date (date : PyVal) (format : String) (type : String) :
    Except PyErr (PyVal × List String) :=
  if type = "object" then
    match strptime date format with
    | .error e => .error e
    | .ok v => .ok (v, [])
  else if type = "string" then
    match strftime date format with
    | .error e => .error e
    | .ok v => .ok (v, [])
  else
    .ok (.none, ["Unsupported convertsion"])

/-- The docopt result dict for the declared usage pattern.  `flyTo`
stands for the `'--to'` entry and `ret` for the `'--return'` entry
(`to` and `return` are Lean keywords); `ret` is `None` or the nights
value as docopt delivers it.  `'--one-way'` is never read
by the program and is omitted; `fastest` (`'--fastest'`) is likewise
never read but is kept because the specification mentions it. -/
structure SearchOptions where
  date : String
  flyFrom : String
  flyTo : String
  ret : PyVal
  cheapest : Bool
  fastest : Bool
  bags : PyVal

/-- Embedding of `prepare_payload(search_options)`.  The payload dict
is an association list in insertion order.  The source assigns
`payload['daysInDestinationTo'] = payload['daysInDestinationFrom']`,
i.e. the value just stored, which is `search_options['--return']`.  The
second component collects the lines printed by the `convert_date`
calls. -/
def prepare_payload (search_options : SearchOptions) :
    Except PyErr (List (String × PyVal) × List String) :=
  match convert_date (.str search_options.date) "%Y-%m-%d" "object" with
  | .error e => .error e
  | .ok (dateFrom, log1) =>
    match convert_date dateFrom "%d/%m/%Y" "string" with
    | .error e => .error e
    | .ok (df, log2) =>
      match convert_date dateFrom "%d/%m/%Y" "string" with
      | .error e => .error e
      | .ok (dt, log3) =>
        let typeFlight : String :=
          if search_options.ret.isNone then "oneway" else "round"
        let payload : List (String × PyVal) :=
          [("v", .int 3),
           ("dateFrom", df),
           ("dateTo", dt),
           ("flyFrom", .str search_options.flyFrom),
           ("to", .str search_options.flyTo),
           ("typeFlight", .str typeFlight),
           ("adults", .int 1),
           ("limit", .int 1),
           ("sort", .str (if search_options.cheapest then "price" else "duration"))]
        let payload2 : List (String × PyVal) :=
          if typeFlight = "round" then
            payload ++ [("daysInDestinationFrom", search_options.ret),
                        ("daysInDestinationTo", search_options.ret)]
          else payload
        .ok (payload2, log1 ++ log2 ++ log3)

/-- Rendering of a value by `print` / `str.format`, i.e. Python's
`str()`.  The program only ever prints scalars (currency and city
strings, a numeric price, the PNR); container rendering is therefore
left as an opaque placeholder string. -/
def pyStr : PyVal → String
  | .none => "None"
  | .bool b => if b then "True" else "False"
  | .int n => toString n
  | .str s => s
  | .datetime d => padYear d.year ++ "-" ++ pad2 d.month ++ "-" ++ pad2 d.day ++ " 00:00:00"
  | .list _ => "<list>"
  | .dict _ => "<dict>"

/-- An HTTP response of the flight-search GET as the script observes
it: the status code, and the JSON parse of the body text (the script
calls `json.loads(flights.text)`; the body is modelled post-parse). -/
structure Resp where
  status_code : Nat
  json : PyVal

/-- The two network effects of one run: the search GET's response and
the parsed JSON of the booking POST's response. -/
structure World where
  searchResp : Resp
  bookingResp : PyVal

/-- Embedding of `get_flights(payload)`: on a non-200 status it prints
an error line carrying the status code and returns `None`; on 200 it
returns the JSON-parsed body.  The payload only travels to the remote
service, whose response is the `resp` input; the second component
collects the printed lines. -/
def get_flights (_payload : List (String × PyVal)) (resp : Resp) :
    PyVal × List String :=
  if resp.status_code ≠ 200 then
    (.none, ["Error while connecting to API. Response code: " ++ toString resp.status_code])
  else
    (resp.json, [])

/-- The hardcoded passenger list of the script. -/
def passengers : PyVal :=
  .list [.dict [("title", .str "Mr"),
                ("firstName", .str "John"),
                ("lastName", .str "Doe"),
                ("documentID", .str "111"),
                ("email", .str "test@test.com"),
                ("birthday", .str "1980-01-01")]]

/-- The request body built by `book_flight` (lines 122-129 of the
source): `flight_data = flight_details['data'][0]`, then the payload
dict with the result's currency, the passed passenger list, the bag
count from the search options, and the first flight's booking token.
The subscript failures propagate in the source's evaluation order. -/
def book_flight_request (search_options : SearchOptions)
    (flight_details passengers : PyVal) : Except PyErr PyVal :=
  match flight_details.getItem (.str "data") with
  | .error e => .error e
  | .ok dataArr =>
    match dataArr.getItem (.int 0) with
    | .error e => .error e
    | .ok flight_data =>
      match flight_details.getItem (.str "currency") with
      | .error e => .error e
      | .ok currency =>
        match flight_data.getItem (.str "booking_token") with
        | .error e => .error e
        | .ok token =>
          .ok (.dict [("currency", currency),
                      ("passengers", passengers),
                      ("bags", search_options.bags),
                      ("booking_token", token)])

/-- Embedding of `book_flight(search_options, flight_details,
passengers)`: builds the booking request, POSTs it, and returns the
JSON parse of the response text.  The response is the network input
`bookingResp`. -/
def book_flight (search_options : SearchOptions)
    (flight_details passengers : PyVal) (bookingResp : PyVal) :
    Except PyErr PyVal :=
  match book_flight_request search_options flight_details passengers with
  | .error e => .error e
  | .ok _payload => .ok bookingResp

/-- Embedding of `search_and_book(search_options)`: payload build →
search → booking → report.  The result is the list of printed lines,
or the exception that terminates the run.  In the source the confirmed
branch recomputes `flight_details['data'][0]` for price, departure and
arrival city; `getItem` is pure, so the chain is factored once and the
three field reads share the source's evaluation order (price, cityFrom,
cityTo, then `booking['pnr']` inside the last `print`). -/
def search_and_book (search_options : SearchOptions) (w : World) :
    Except PyErr (List String) :=
  match prepare_payload search_options with
  | .error e => .error e
  | .ok (payload, plog) =>
    match get_flights payload w.searchResp with
    | (flight_details, slog) =>
      match book_flight search_options flight_details passengers w.bookingResp with
      | .error e => .error e
      | .ok booking =>
        match booking.getItem (.str "status") with
        | .error e => .error e
        | .ok st =>
          if pyEqStr st "confirmed" then
            match flight_details.getItem (.str "currency") with
            | .error e => .error e
            | .ok currency =>
              match flight_details.getItem (.str "data") with
              | .error e => .error e
              | .ok dataArr =>
                match dataArr.getItem (.int 0) with
                | .error e => .error e
                | .ok fd0 =>
                  match fd0.getItem (.str "price"), fd0.getItem (.str "cityFrom"),
                        fd0.getItem (.str "cityTo"), booking.getItem (.str "pnr") with
                  | .ok price, .ok flyFrom, .ok flyTo, .ok pnr =>
                    .ok (plog ++ slog ++
                         [pyStr currency,
                          "Flight succesfully booked",
                          "Price: " ++ pyStr price ++ " " ++ pyStr currency,
                          "Departure: " ++ pyStr flyFrom,
                          "Arrival: " ++ pyStr flyTo,
                          "Your booking number is " ++ pyStr pnr])
                  | .error e, _, _, _ => .error e
                  | _, .error e, _, _ => .error e
                  | _, _, .error e, _ => .error e
                  | _, _, _, .error e => .error e
          else
            .ok (plog ++ slog ++ ["Could not book the flight"])

/-- The payload that `prepare_payload` builds once the departure date
has parsed to `d` (characterisation helper for the theorems below). -/
def payload_of (o : SearchOptions) (d : Date) : List (String × PyVal) :=
  let typeFlight : String := if o.ret.isNone then "oneway" else "round"
  let base : List (String × PyVal) :=
    [("v", .int 3),
     ("dateFrom", .str (formatDMY d)),
     ("dateTo", .str (formatDMY d)),
     ("flyFrom", .str o.flyFrom),
     ("to", .str o.flyTo),
     ("typeFlight", .str typeFlight),
     ("adults", .int 1),
     ("limit", .int 1),
     ("sort", .str (if o.cheapest then "price" else "duration"))]
  if typeFlight = "round" then
    base ++ [("daysInDestinationFrom", o.ret), ("daysInDestinationTo", o.ret)]
  else base

/-- Characterisation of `prepare_payload`: it fails with the
`ValueError` of `strptime` exactly on malformed dates, and otherwise
returns `payload_of` with an empty print log. -/
theorem prepare_payload_eq (o : SearchOptions) :
    prepare_payload o =
      match parseYMD o.date with
      | some d => .ok (payload_of o d, [])
      | Option.none => .error .valueError := by
  cases h : parseYMD o.date <;>
    simp [prepare_payload, convert_date, strptime, strftime, payload_of, h]

/-- Subscripting a non-empty Python list at index 0 yields its head. -/
theorem PyVal.getItem_zero (x : PyVal) (xs : List PyVal) :
    PyVal.getItem (.list (x :: xs)) (.int 0) = .ok x := by
  simp [PyVal.getItem]

/-- C2: for every valid one-way search-options record (return-nights
absent), `prepare_payload` produces a payload with `typeFlight` equal
to `oneway`, containing neither the `daysInDestinationFrom` key nor the
`daysInDestinationTo` key. -/
theorem prepare_payload_oneway (o : SearchOptions)
    (p : List (String × PyVal)) (log : List String)
    (hret : o.ret = PyVal.none)
    (hp : prepare_payload o = .ok (p, log)) :
    p.lookup "typeFlight" = some (PyVal.str "oneway") ∧
    p.lookup "daysInDestinationFrom" = Option.none ∧
    p.lookup "daysInDestinationTo" = Option.none := by
  rw [prepare_payload_eq] at hp
  cases h : parseYMD o.date with
  | none => rw [h] at hp; exact absurd hp (by simp)
  | some d =>
    rw [h] at hp
    obtain ⟨hp1, hp2⟩ := by simpa using hp
    subst hp1
    simp [payload_of, hret, PyVal.isNone, List.lookup]

/-- Witness for `prepare_payload_oneway`: the one-way scenario options
from the specification. -/
theorem prepare_payload_oneway_witness :
    (([("v", PyVal.int 3), ("dateFrom", PyVal.str "01/09/2021"),
       ("dateTo", PyVal.str "01/09/2021"), ("flyFrom", PyVal.str "PRG"),
       ("to", PyVal.str "LON"), ("typeFlight", PyVal.str "oneway"),
       ("adults", PyVal.int 1), ("limit", PyVal.int 1),
       ("sort", PyVal.str "price")] : List (String × PyVal)).lookup "typeFlight" =
        some (PyVal.str "oneway")) ∧
    (([("v", PyVal.int 3), ("dateFrom", PyVal.str "01/09/2021"),
       ("dateTo", PyVal.str "01/09/2021"), ("flyFrom", PyVal.str "PRG"),
       ("to", PyVal.str "LON"), ("typeFlight", PyVal.str "oneway"),
       ("adults", PyVal.int 1), ("limit", PyVal.int 1),
       ("sort", PyVal.str "price")] : List (String × PyVal)).lookup "daysInDestinationFrom" =
        Option.none) ∧
    (([("v", PyVal.int 3), ("dateFrom", PyVal.str "01/09/2021"),
       ("dateTo", PyVal.str "01/09/2021"), ("flyFrom", PyVal.str "PRG"),
       ("to", PyVal.str "LON"), ("typeFlight", PyVal.str "oneway"),
       ("adults", PyVal.int 1), ("limit", PyVal.int 1),
       ("sort", PyVal.str "price")] : List (String × PyVal)).lookup "daysInDestinationTo" =
        Option.none) :=
  prepare_payload_oneway
    ⟨"2021-09-01", "PRG", "LON", PyVal.none, true, false, PyVal.str "0"⟩
    _ [] rfl rfl

/-- C3: for every valid round-trip search-options record (return-nights
present, i.e. not `None`), `prepare_payload` produces a payload with
`typeFlight` equal to `round` and with both `daysInDestinationFrom` and
`daysInDestinationTo` equal to the supplied return-nights value. -/
theorem prepare_payload_round (o : SearchOptions)
    (p : List (String × PyVal)) (log : List String)
    (hret : o.ret.isNone = false)
    (hp : prepare_payload o = .ok (p, log)) :
    p.lookup "typeFlight" = some (PyVal.str "round") ∧
    p.lookup "daysInDestinationFrom" = some o.ret ∧
    p.lookup "daysInDestinationTo" = some o.ret := by
  rw [prepare_payload_eq] at hp
  cases h : parseYMD o.date with
  | none => rw [h] at hp; exact absurd hp (by simp)
  | some d =>
    rw [h] at hp
    obtain ⟨hp1, hp2⟩ := by simpa using hp
    subst hp1
    simp [payload_of, hret, List.lookup]

/-- Witness for `prepare_payload_round`: a three-night round trip. -/
theorem prepare_payload_round_witness :
    (([("v", PyVal.int 3), ("dateFrom", PyVal.str "01/09/2021"),
       ("dateTo", PyVal.str "01/09/2021"), ("flyFrom", PyVal.str "PRG"),
       ("to", PyVal.str "LON"), ("typeFlight", PyVal.str "round"),
       ("adults", PyVal.int 1), ("limit", PyVal.int 1),
       ("sort", PyVal.str "price"),
       ("daysInDestinationFrom", PyVal.str "3"),
       ("daysInDestinationTo", PyVal.str "3")] :
       List (String × PyVal)).lookup "typeFlight" = some (PyVal.str "round")) ∧
    (([("v", PyVal.int 3), ("dateFrom", PyVal.str "01/09/2021"),
       ("dateTo", PyVal.str "01/09/2021"), ("flyFrom", PyVal.str "PRG"),
       ("to", PyVal.str "LON"), ("typeFlight", PyVal.str "round"),
       ("adults", PyVal.int 1), ("limit", PyVal.int 1),
       ("sort", PyVal.str "price"),
       ("daysInDestinationFrom", PyVal.str "3"),
       ("daysInDestinationTo", PyVal.str "3")] :
       List (String × PyVal)).lookup "daysInDestinationFrom" = some (PyVal.str "3")) ∧
    (([("v", PyVal.int 3), ("dateFrom", PyVal.str "01/09/2021"),
       ("dateTo", PyVal.str "01/09/2021"), ("flyFrom", PyVal.str "PRG"),
       ("to", PyVal.str "LON"), ("typeFlight", PyVal.str "round"),
       ("adults", PyVal.int 1), ("limit", PyVal.int 1),
       ("sort", PyVal.str "price"),
       ("daysInDestinationFrom", PyVal.str "3"),
       ("daysInDestinationTo", PyVal.str "3")] :
       List (String × PyVal)).lookup "daysInDestinationTo" = some (PyVal.str "3")) :=
  prepare_payload_round
    ⟨"2021-09-01", "PRG", "LON", PyVal.str "3", true, false, PyVal.str "0"⟩
    _ [] rfl rfl

/-- C5: for every search-options record that builds a payload,
`prepare_payload` sets the `sort` field to `price` exactly when the
cheapest flag is set, and to `duration` otherwise — in particular in a
run where the (mutually exclusive) fastest flag is the one set. -/
theorem prepare_payload_sort_key (o : SearchOptions)
    (p : List (String × PyVal)) (log : List String)
    (hp : prepare_payload o = .ok (p, log)) :
    p.lookup "sort" = some (PyVal.str (if o.cheapest then "price" else "duration")) ∧
    (o.cheapest = true → p.lookup "sort" = some (PyVal.str "price")) ∧
    (o.cheapest = false → p.lookup "sort" = some (PyVal.str "duration")) ∧
    (o.fastest = true → o.cheapest = false →
      p.lookup "sort" = some (PyVal.str "duration")) := by
  rw [prepare_payload_eq] at hp
  cases h : parseYMD o.date with
  | none => rw [h] at hp; exact absurd hp (by simp)
  | some d =>
    rw [h] at hp
    obtain ⟨hp1, hp2⟩ := by simpa using hp
    subst hp1
    cases hb : o.ret.isNone <;> cases hcc : o.cheapest <;>
      simp [payload_of, hb, hcc, List.lookup]

/-- Witness for `prepare_payload_sort_key`: a fastest-flag run maps to
`sort = duration`. -/
theorem prepare_payload_sort_key_witness :
    (([("v", PyVal.int 3), ("dateFrom", PyVal.str "01/09/2021"),
       ("dateTo", PyVal.str "01/09/2021"), ("flyFrom", PyVal.str "PRG"),
       ("to", PyVal.str "LON"), ("typeFlight", PyVal.str "oneway"),
       ("adults", PyVal.int 1), ("limit", PyVal.int 1),
       ("sort", PyVal.str "duration")] : List (String × PyVal)).lookup "sort" =
      some (PyVal.str (if false then "price" else "duration"))) ∧
    (false = true →
      ([("v", PyVal.int 3), ("dateFrom", PyVal.str "01/09/2021"),
        ("dateTo", PyVal.str "01/09/2021"), ("flyFrom", PyVal.str "PRG"),
        ("to", PyVal.str "LON"), ("typeFlight", PyVal.str "oneway"),
        ("adults", PyVal.int 1), ("limit", PyVal.int 1),
        ("sort", PyVal.str "duration")] : List (String × PyVal)).lookup "sort" =
        some (PyVal.str "price")) ∧
    (false = false →
      ([("v", PyVal.int 3), ("dateFrom", PyVal.str "01/09/2021"),
        ("dateTo", PyVal.str "01/09/2021"), ("flyFrom", PyVal.str "PRG"),
        ("to", PyVal.str "LON"), ("typeFlight", PyVal.str "oneway"),
        ("adults", PyVal.int 1), ("limit", PyVal.int 1),
        ("sort", PyVal.str "duration")] : List (String × PyVal)).lookup "sort" =
        some (PyVal.str "duration")) ∧
    (true = true → false = false →
      ([("v", PyVal.int 3), ("dateFrom", PyVal.str "01/09/2021"),
        ("dateTo", PyVal.str "01/09/2021"), ("flyFrom", PyVal.str "PRG"),
        ("to", PyVal.str "LON"), ("typeFlight", PyVal.str "oneway"),
        ("adults", PyVal.int 1), ("limit", PyVal.int 1),
        ("sort", PyVal.str "duration")] : List (String × PyVal)).lookup "sort" =
        some (PyVal.str "duration")) :=
  prepare_payload_sort_key
    ⟨"2021-09-01", "PRG", "LON", PyVal.none, false, true, PyVal.str "0"⟩
    _ [] rfl

/-- C6: the specification scenario — search options date 2021-09-01,
PRG to LON, one-way, cheapest, one bag — produces exactly the payload
`v=3, dateFrom=dateTo=01/09/2021, flyFrom=PRG, to=LON,
typeFlight=oneway, adults=1, limit=1, sort=price` (and nothing else, in
insertion order); moreover every payload `prepare_payload` builds
contains the constants `v=3`, `adults=1` and `limit=1`. -/
theorem prepare_payload_scenario :
    prepare_payload ⟨"2021-09-01", "PRG", "LON", PyVal.none, true, false, PyVal.str "1"⟩ =
      .ok ([("v", PyVal.int 3),
            ("dateFrom", PyVal.str "01/09/2021"),
            ("dateTo", PyVal.str "01/09/2021"),
            ("flyFrom", PyVal.str "PRG"),
            ("to", PyVal.str "LON"),
            ("typeFlight", PyVal.str "oneway"),
            ("adults", PyVal.int 1),
            ("limit", PyVal.int 1),
            ("sort", PyVal.str "price")], []) ∧
    ∀ (o : SearchOptions) (p : List (String × PyVal)) (log : List String),
      prepare_payload o = .ok (p, log) →
      p.lookup "v" = some (PyVal.int 3) ∧
      p.lookup "adults" = some (PyVal.int 1) ∧
      p.lookup "limit" = some (PyVal.int 1) := by
  refine ⟨rfl, fun o p log hp => ?_⟩
  rw [prepare_payload_eq] at hp
  cases h : parseYMD o.date with
  | none => rw [h] at hp; exact absurd hp (by simp)
  | some d =>
    rw [h] at hp
    obtain ⟨hp1, hp2⟩ := by simpa using hp
    subst hp1
    cases hb : o.ret.isNone <;> simp [payload_of, hb, List.lookup]

/-- Witness for the universally quantified part of
`prepare_payload_scenario`, at the scenario payload itself. -/
theorem prepare_payload_scenario_witness :
    (([("v", PyVal.int 3), ("dateFrom", PyVal.str "01/09/2021"),
       ("dateTo", PyVal.str "01/09/2021"), ("flyFrom", PyVal.str "PRG"),
       ("to", PyVal.str "LON"), ("typeFlight", PyVal.str "oneway"),
       ("adults", PyVal.int 1), ("limit", PyVal.int 1),
       ("sort", PyVal.str "price")] : List (String × PyVal)).lookup "v" =
      some (PyVal.int 3)) ∧
    (([("v", PyVal.int 3), ("dateFrom", PyVal.str "01/09/2021"),
       ("dateTo", PyVal.str "01/09/2021"), ("flyFrom", PyVal.str "PRG"),
       ("to", PyVal.str "LON"), ("typeFlight", PyVal.str "oneway"),
       ("adults", PyVal.int 1), ("limit", PyVal.int 1),
       ("sort", PyVal.str "price")] : List (String × PyVal)).lookup "adults" =
      some (PyVal.int 1)) ∧
    (([("v", PyVal.int 3), ("dateFrom", PyVal.str "01/09/2021"),
       ("dateTo", PyVal.str "01/09/2021"), ("flyFrom", PyVal.str "PRG"),
       ("to", PyVal.str "LON"), ("typeFlight", PyVal.str "oneway"),
       ("adults", PyVal.int 1), ("limit", PyVal.int 1),
       ("sort", PyVal.str "price")] : List (String × PyVal)).lookup "limit" =
      some (PyVal.int 1)) :=
  prepare_payload_scenario.2
    ⟨"2021-09-01", "PRG", "LON", PyVal.none, true, false, PyVal.str "1"⟩
    _ [] prepare_payload_scenario.1

/-- C4: for every valid `yyyy-mm-dd` date string, `convert_date` with
type `object` parses it to a date object, `convert_date` with type
`string` renders that object as the same calendar date in `dd/mm/yyyy`
(zero-padded day and month, then the year), and `prepare_payload`
assigns this very value to both the `dateFrom` and `dateTo` payload
fields. -/
theorem convert_date_roundtrip (s : String) (d : Date) (o : SearchOptions)
    (p : List (String × PyVal)) (log : List String)
    (hs : parseYMD s = some d) :
    convert_date (.str s) "%Y-%m-%d" "object" = .ok (.datetime d, []) ∧
    convert_date (.datetime d) "%d/%m/%Y" "string" =
      .ok (.str (pad2 d.day ++ "/" ++ pad2 d.month ++ "/" ++ padYear d.year), []) ∧
    (o.date = s → prepare_payload o = .ok (p, log) →
      p.lookup "dateFrom" = some (PyVal.str (formatDMY d)) ∧
      p.lookup "dateTo" = some (PyVal.str (formatDMY d))) := by
  refine ⟨by simp [convert_date, strptime, hs],
          by simp [convert_date, strftime, formatDMY],
          fun ho hp => ?_⟩
  rw [prepare_payload_eq, ho, hs] at hp
  obtain ⟨hp1, hp2⟩ := by simpa using hp
  subst hp1
  cases hb : o.ret.isNone <;> simp [payload_of, hb, List.lookup]

/-- Witness for `convert_date_roundtrip`: the specification example,
2021-07-04 rendered as 04/07/2021, and its payload fields. -/
theorem convert_date_roundtrip_witness :
    convert_date (.str "2021-07-04") "%Y-%m-%d" "object" =
      .ok (.datetime ⟨2021, 7, 4⟩, []) ∧
    convert_date (.datetime ⟨2021, 7, 4⟩) "%d/%m/%Y" "string" =
      .ok (.str "04/07/2021", []) ∧
    ("2021-07-04" = "2021-07-04" →
      prepare_payload ⟨"2021-07-04", "PRG", "LON", PyVal.none, true, false, PyVal.str "0"⟩ =
        .ok ([("v", PyVal.int 3), ("dateFrom", PyVal.str "04/07/2021"),
              ("dateTo", PyVal.str "04/07/2021"), ("flyFrom", PyVal.str "PRG"),
              ("to", PyVal.str "LON"), ("typeFlight", PyVal.str "oneway"),
              ("adults", PyVal.int 1), ("limit", PyVal.int 1),
              ("sort", PyVal.str "price")], []) →
      ([("v", PyVal.int 3), ("dateFrom", PyVal.str "04/07/2021"),
        ("dateTo", PyVal.str "04/07/2021"), ("flyFrom", PyVal.str "PRG"),
        ("to", PyVal.str "LON"), ("typeFlight", PyVal.str "oneway"),
        ("adults", PyVal.int 1), ("limit", PyVal.int 1),
        ("sort", PyVal.str "price")] : List (String × PyVal)).lookup "dateFrom" =
          some (PyVal.str (formatDMY ⟨2021, 7, 4⟩)) ∧
      ([("v", PyVal.int 3), ("dateFrom", PyVal.str "04/07/2021"),
        ("dateTo", PyVal.str "04/07/2021"), ("flyFrom", PyVal.str "PRG"),
        ("to", PyVal.str "LON"), ("typeFlight", PyVal.str "oneway"),
        ("adults", PyVal.int 1), ("limit", PyVal.int 1),
        ("sort", PyVal.str "price")] : List (String × PyVal)).lookup "dateTo" =
          some (PyVal.str (formatDMY ⟨2021, 7, 4⟩))) :=
  convert_date_roundtrip "2021-07-04" ⟨2021, 7, 4⟩
    ⟨"2021-07-04", "PRG", "LON", PyVal.none, true, false, PyVal.str "0"⟩
    _ [] rfl

/-- C1: for every search-options record, passenger list and non-absent
flight result with a non-empty data list (carrying a currency and a
booking token, as the search API's shape guarantees), `book_flight`
builds its booking request from the first element of the flight list:
currency from the result, the given passengers, the options' bag count,
and the first flight's booking token. -/
theorem book_flight_request_spec (o : SearchOptions)
    (fd ps c tok f0 : PyVal) (fs : List PyVal)
    (hcur : fd.getItem (.str "currency") = .ok c)
    (hdata : fd.getItem (.str "data") = .ok (.list (f0 :: fs)))
    (htok : f0.getItem (.str "booking_token") = .ok tok) :
    book_flight_request o fd ps =
      .ok (.dict [("currency", c), ("passengers", ps),
                  ("bags", o.bags), ("booking_token", tok)]) := by
  simp [book_flight_request, hdata, hcur, htok, PyVal.getItem_zero]

/-- Witness for `book_flight_request_spec`: a concrete two-flight
result; the request is built from the first flight only. -/
theorem book_flight_request_spec_witness :
    book_flight_request
      ⟨"2021-09-01", "PRG", "LON", PyVal.none, true, false, PyVal.str "1"⟩
      (.dict [("currency", .str "EUR"),
              ("data", .list [.dict [("booking_token", .str "tokA")],
                              .dict [("booking_token", .str "tokB")]])])
      passengers =
      .ok (.dict [("currency", .str "EUR"), ("passengers", passengers),
                  ("bags", .str "1"), ("booking_token", .str "tokA")]) :=
  book_flight_request_spec
    ⟨"2021-09-01", "PRG", "LON", PyVal.none, true, false, PyVal.str "1"⟩
    (.dict [("currency", .str "EUR"),
            ("data", .list [.dict [("booking_token", .str "tokA")],
                            .dict [("booking_token", .str "tokB")]])])
    passengers (.str "EUR") (.str "tokA")
    (.dict [("booking_token", .str "tokA")])
    [.dict [("booking_token", .str "tokB")]]
    rfl rfl rfl

/-- C7: `get_flights` prints an error line carrying the status code and
returns `None` for every response whose status code is not 200, and
returns the JSON-parsed response body (printing nothing) for every
response with status code 200. -/
theorem get_flights_status (payload : List (String × PyVal)) (resp : Resp) :
    (resp.status_code ≠ 200 →
      get_flights payload resp =
        (PyVal.none,
         ["Error while connecting to API. Response code: " ++
          toString resp.status_code])) ∧
    (resp.status_code = 200 → get_flights payload resp = (resp.json, [])) := by
  constructor <;> intro h <;> simp [get_flights, h]

/-- Witness for `get_flights_status`: a 500 response yields `None` and
the error line containing 500; a 200 response yields its body. -/
theorem get_flights_status_witness :
    get_flights [] ⟨500, PyVal.none⟩ =
      (PyVal.none, ["Error while connecting to API. Response code: 500"]) ∧
    get_flights [] ⟨200, PyVal.dict [("currency", PyVal.str "EUR")]⟩ =
      (PyVal.dict [("currency", PyVal.str "EUR")], []) :=
  ⟨(get_flights_status [] ⟨500, PyVal.none⟩).1 (by decide),
   (get_flights_status [] ⟨200, PyVal.dict [("currency", PyVal.str "EUR")]⟩).2 rfl⟩

/-- C10: `convert_date` called with any type other than `object` or
`string` returns `None` after printing the `Unsupported convertsion`
message, raising nothing; and this branch is unreachable from
`prepare_payload`, whose runs never print anything. -/
theorem convert_date_unsupported :
    (∀ (date : PyVal) (format type : String),
      type ≠ "object" → type ≠ "string" →
      convert_date date format type = .ok (.none, ["Unsupported convertsion"])) ∧
    (∀ (o : SearchOptions) (p : List (String × PyVal)) (log : List String),
      prepare_payload o = .ok (p, log) → log = []) := by
  constructor
  · intro date format type h1 h2
    simp [convert_date, h1, h2]
  · intro o p log hp
    rw [prepare_payload_eq] at hp
    cases h : parseYMD o.date with
    | none => rw [h] at hp; exact absurd hp (by simp)
    | some d =>
      rw [h] at hp
      obtain ⟨hp1, hp2⟩ := by simpa using hp
      exact hp2

/-- Witness for `convert_date_unsupported`: a concrete unsupported type
argument, and the (empty) print log of a concrete
`prepare_payload` run. -/
theorem convert_date_unsupported_witness :
    convert_date (.str "2021-09-01") "%Y-%m-%d" "text" =
      .ok (.none, ["Unsupported convertsion"]) ∧
    ([] : List String) = [] :=
  ⟨convert_date_unsupported.1 (.str "2021-09-01") "%Y-%m-%d" "text"
     (by decide) (by decide),
   convert_date_unsupported.2
     ⟨"2021-09-01", "PRG", "LON", PyVal.none, true, false, PyVal.str "1"⟩
     [("v", PyVal.int 3), ("dateFrom", PyVal.str "01/09/2021"),
      ("dateTo", PyVal.str "01/09/2021"), ("flyFrom", PyVal.str "PRG"),
      ("to", PyVal.str "LON"), ("typeFlight", PyVal.str "oneway"),
      ("adults", PyVal.int 1), ("limit", PyVal.int 1),
      ("sort", PyVal.str "price")] [] rfl⟩

/-- C8: for every run whose pipeline reaches the report (payload built,
search succeeded with a well-formed flight result, booking response
carrying a status), the orchestrator prints the currency, price,
departure city, arrival city and booking reference exactly when the
status equals `confirmed`; for any other status value it prints only
the generic `Could not book the flight` line and does not crash. -/
theorem search_and_book_reporting (o : SearchOptions) (w : World)
    (pl : List (String × PyVal)) (plog : List String)
    (c tok st f0 : PyVal) (fs : List PyVal)
    (hp : prepare_payload o = .ok (pl, plog))
    (hs : w.searchResp.status_code = 200)
    (hcur : w.searchResp.json.getItem (.str "currency") = .ok c)
    (hdata : w.searchResp.json.getItem (.str "data") = .ok (.list (f0 :: fs)))
    (htok : f0.getItem (.str "booking_token") = .ok tok)
    (hst : w.bookingResp.getItem (.str "status") = .ok st) :
    (∀ price cf ct pnr : PyVal,
      st = PyVal.str "confirmed" →
      f0.getItem (.str "price") = .ok price →
      f0.getItem (.str "cityFrom") = .ok cf →
      f0.getItem (.str "cityTo") = .ok ct →
      w.bookingResp.getItem (.str "pnr") = .ok pnr →
      search_and_book o w =
        .ok (plog ++
             [pyStr c,
              "Flight succesfully booked",
              "Price: " ++ pyStr price ++ " " ++ pyStr c,
              "Departure: " ++ pyStr cf,
              "Arrival: " ++ pyStr ct,
              "Your booking number is " ++ pyStr pnr])) ∧
    (pyEqStr st "confirmed" = false →
      search_and_book o w = .ok (plog ++ ["Could not book the flight"])) := by
  constructor
  · intro price cf ct pnr hconf hprice hcf hct hpnr
    subst hconf
    simp [search_and_book, hp, get_flights, hs, book_flight,
          book_flight_request, hdata, hcur, htok, PyVal.getItem_zero,
          hst, pyEqStr, hprice, hcf, hct, hpnr]
  · intro hne
    simp [search_and_book, hp, get_flights, hs, book_flight,
          book_flight_request, hdata, hcur, htok, PyVal.getItem_zero,
          hst, hne]

/-- Witness for `search_and_book_reporting`: one confirmed run printing
the full report and one pending run printing only the failure line. -/
theorem search_and_book_reporting_witness :
    search_and_book
      ⟨"2021-09-01", "PRG", "LON", PyVal.none, true, false, PyVal.str "1"⟩
      ⟨⟨200, .dict [("currency", .str "EUR"),
                    ("data", .list [.dict [("price", .int 100),
                                           ("cityFrom", .str "Prague"),
                                           ("cityTo", .str "London"),
                                           ("booking_token", .str "tok")]])]⟩,
       .dict [("status", .str "confirmed"), ("pnr", .str "ABC123")]⟩ =
      .ok ["EUR", "Flight succesfully booked", "Price: 100 EUR",
           "Departure: Prague", "Arrival: London",
           "Your booking number is ABC123"] ∧
    search_and_book
      ⟨"2021-09-01", "PRG", "LON", PyVal.none, true, false, PyVal.str "1"⟩
      ⟨⟨200, .dict [("currency", .str "EUR"),
                    ("data", .list [.dict [("price", .int 100),
                                           ("cityFrom", .str "Prague"),
                                           ("cityTo", .str "London"),
                                           ("booking_token", .str "tok")]])]⟩,
       .dict [("status", .str "pending")]⟩ =
      .ok ["Could not book the flight"] :=
  ⟨(search_and_book_reporting
      ⟨"2021-09-01", "PRG", "LON", PyVal.none, true, false, PyVal.str "1"⟩
      ⟨⟨200, .dict [("currency", .str "EUR"),
                    ("data", .list [.dict [("price", .int 100),
                                           ("cityFrom", .str "Prague"),
                                           ("cityTo", .str "London"),
                                           ("booking_token", .str "tok")]])]⟩,
       .dict [("status", .str "confirmed"), ("pnr", .str "ABC123")]⟩
      _ [] (.str "EUR") (.str "tok") (.str "confirmed")
      (.dict [("price", .int 100), ("cityFrom", .str "Prague"),
              ("cityTo", .str "London"), ("booking_token", .str "tok")])
      [] rfl rfl rfl rfl rfl rfl).1
      (.int 100) (.str "Prague") (.str "London") (.str "ABC123")
      rfl rfl rfl rfl rfl,
   (search_and_book_reporting
      ⟨"2021-09-01", "PRG", "LON", PyVal.none, true, false, PyVal.str "1"⟩
      ⟨⟨200, .dict [("currency", .str "EUR"),
                    ("data", .list [.dict [("price", .int 100),
                                           ("cityFrom", .str "Prague"),
                                           ("cityTo", .str "London"),
                                           ("booking_token", .str "tok")]])]⟩,
       .dict [("status", .str "pending")]⟩
      _ [] (.str "EUR") (.str "tok") (.str "pending")
      (.dict [("price", .int 100), ("cityFrom", .str "Prague"),
              ("cityTo", .str "London"), ("booking_token", .str "tok")])
      [] rfl rfl rfl rfl rfl rfl).2 rfl⟩

/-- C9, counterexample: a run whose search response has status 500, so
the flight search yields `None`.  The booking step then terminates the
run with an uncaught `TypeError` (CPython: subscripting `None` is not a
lookup), not with a lookup/index error as the claim states. -/
theorem search_and_book_absent_typeerror :
    search_and_book
      ⟨"2021-09-01", "PRG", "LON", PyVal.none, true, false, PyVal.str "0"⟩
      ⟨⟨500, PyVal.none⟩, PyVal.dict []⟩ = .error PyErr.typeError ∧
    PyErr.typeError ≠ PyErr.keyError ∧ PyErr.typeError ≠ PyErr.indexError :=
  ⟨rfl, by decide, by decide⟩

/-- C9, amended: when the flight search yields an absent result the
booking step dereferences `None` and the run terminates with an
uncaught type error; when it yields a result whose data list is empty
the booking step terminates the run with an uncaught index error.
Either way the absence is propagated unguarded. -/
theorem search_and_book_unguarded (o : SearchOptions) (w : World)
    (pl : List (String × PyVal)) (plog : List String)
    (hp : prepare_payload o = .ok (pl, plog)) :
    ((get_flights pl w.searchResp).1 = PyVal.none →
      search_and_book o w = .error PyErr.typeError) ∧
    ((get_flights pl w.searchResp).1.getItem (.str "data") = .ok (PyVal.list []) →
      search_and_book o w = .error PyErr.indexError) := by
  constructor
  · intro habs
    simp [search_and_book, hp, book_flight, book_flight_request, habs,
          PyVal.getItem]
  · intro hempty
    have h0 : (PyVal.list []).getItem (PyVal.int 0) =
        Except.error PyErr.indexError := rfl
    simp [search_and_book, hp, book_flight, book_flight_request, hempty, h0]

/-- Witness for `search_and_book_unguarded`: a 500 search response
(absent result, type error) and a 200 response with an empty data list
(index error). -/
theorem search_and_book_unguarded_witness :
    search_and_book
      ⟨"2021-09-01", "PRG", "LON", PyVal.none, true, false, PyVal.str "0"⟩
      ⟨⟨500, PyVal.none⟩, PyVal.dict [("status", PyVal.str "pending")]⟩ =
      .error PyErr.typeError ∧
    search_and_book
      ⟨"2021-09-01", "PRG", "LON", PyVal.none, true, false, PyVal.str "0"⟩
      ⟨⟨200, .dict [("currency", .str "EUR"), ("data", .list [])]⟩,
       PyVal.dict [("status", PyVal.str "pending")]⟩ =
      .error PyErr.indexError :=
  ⟨(search_and_book_unguarded
      ⟨"2021-09-01", "PRG", "LON", PyVal.none, true, false, PyVal.str "0"⟩
      ⟨⟨500, PyVal.none⟩, PyVal.dict [("status", PyVal.str "pending")]⟩
      _ [] rfl).1 rfl,
   (search_and_book_unguarded
      ⟨"2021-09-01", "PRG", "LON", PyVal.none, true, false, PyVal.str "0"⟩
      ⟨⟨200, .dict [("currency", .str "EUR"), ("data", .list [])]⟩,
       PyVal.dict [("status", PyVal.str "pending")]⟩
      _ [] rfl).2 rfl⟩

end SearchAndBook
